import Mathlib

/-!
Verification of the request-handling layer of a small Flask service
(`src/main.py`): a single recognition-capable endpoint that downloads the
audio of a video URL and forwards it to the ACRCloud recognition API,
reshaping the result.

The embedding translates the Python source directly:
- Python dictionary lookups with defaults (`d.get(k, v)`) become
  `Option`-valued fields with `Option.bind` / `Option.getD`;
- Python truthiness on strings (`None` and `""` are falsy) is `pyTruthyStr`;
- the handler `process_youtube_url` is a pure function of the request, the
  startup recognizer state, and a `World` describing the behaviour of the
  two external collaborators (pytube extraction/download, ACRCloud
  recognition) plus the filesystem delete outcome; alongside the HTTP
  result it returns a `Trace` recording which external work was attempted
  and the fate of the temporary file.
-/

/-- Python truthiness of an optional string: `None` and `""` are falsy. -/
def pyTruthyStr : Option String → Bool
  | none => false
  | some s => !(s == "")

/-- Python `a or b` on optional strings (`os.environ.get(..) or os.environ.get(..)`). -/
def pyOrStr (a b : Option String) : Option String :=
  if pyTruthyStr a then a else b

/-! ## Raw ACRCloud match shape (the JSON the mapper consumes) -/

/-- Entry of the artists list of a raw match; `name` may be absent. -/
structure ArtistEntry where
  name : Option String
deriving DecidableEq

/-- Album object of a raw match; `name` may be absent. -/
structure AlbumInfo where
  name : Option String
deriving DecidableEq

/-- Element of `external_metadata.spotify.artists`. -/
structure SpotifyArtist where
  id : Option String
deriving DecidableEq

/-- Track object `external_metadata.spotify.track`. -/
structure SpotifyTrack where
  id : Option String
deriving DecidableEq

/-- Spotify object `external_metadata.spotify`. -/
structure SpotifyMeta where
  artists : Option (List SpotifyArtist)
  track : Option SpotifyTrack
deriving DecidableEq

/-- Youtube object `external_metadata.youtube`. -/
structure YoutubeMeta where
  vid : Option String
deriving DecidableEq

/-- Field `external_metadata` of a raw match. -/
structure ExternalMeta where
  spotify : Option SpotifyMeta
  youtube : Option YoutubeMeta
deriving DecidableEq

/-- Raw ACRCloud music item as consumed by
`map_acr_match_to_soundtrace_format` (src/main.py lines 45-70).
Every field the Python code reads with `.get` is optional. -/
structure AcrMatch where
  acrid : Option String
  title : Option String
  artists : Option (List ArtistEntry)
  album : Option AlbumInfo
  release_date : Option String
  score : Option Int
  external_metadata : Option ExternalMeta
deriving DecidableEq

/-- Sub-object `platformLinks` of the mapped result. -/
structure PlatformLinks where
  spotify : Option String
  youtube : Option String
deriving DecidableEq

/-- SoundTrace-format match produced by the mapper (src/main.py lines 54-70). -/
structure SoundTraceMatch where
  id : Option String
  title : String
  artist : String
  album : String
  releaseDate : String
  matchConfidence : Int
  spotifyArtistId : Option String
  spotifyTrackId : Option String
  youtubeVideoId : Option String
  youtubeVideoTitle : Option String
  platformLinks : PlatformLinks
deriving DecidableEq

/-- src/main.py line 48: the id of the first spotify artist, taken only when
the artist list is truthy.
An absent or empty artist list is falsy, so the id is taken only from a
head of a nonempty list. `spotify_data` itself may be the default `{}`
(modelled `none`). -/
def spotifyArtistIdOf (spotify_data : Option SpotifyMeta) : Option String :=
  match spotify_data with
  | none => none
  | some d =>
    match d.artists with
    | some (a :: _) => a.id
    | _ => none

/-- src/main.py line 49: the id of the spotify track object, taken only when
the track object is truthy.
A falsy (absent or empty) track object and an absent id both yield `None`. -/
def spotifyTrackIdOf (spotify_data : Option SpotifyMeta) : Option String :=
  match spotify_data with
  | none => none
  | some d => d.track.bind SpotifyTrack.id

/-- src/main.py line 52: the vid of the youtube object, taken only when the
youtube object is truthy (its default is the falsy empty dict, modelled `none`). -/
def youtubeVideoIdOf (youtube_data : Option YoutubeMeta) : Option String :=
  youtube_data.bind YoutubeMeta.vid

/-- src/main.py lines 57-58: the artist names joined with a comma separator,
each name defaulting to the unknown-artist string; the trailing Python `or`
replaces an empty (falsy) join result with the same default. -/
def artistFieldOf (m : AcrMatch) : String :=
  let joined := String.intercalate ", "
    ((m.artists.getD []).map (fun a => a.name.getD "Unknown Artist"))
  if joined = "" then "Unknown Artist" else joined

/-- `map_acr_match_to_soundtrace_format` (src/main.py lines 45-70), field by
field. The deep links reproduce the Python conditional expressions guarding
the f-strings, with Python string truthiness. -/
def map_acr_match_to_soundtrace_format (acr_match : AcrMatch) : SoundTraceMatch :=
  let spotify_data := acr_match.external_metadata.bind ExternalMeta.spotify
  let spotify_artist_id := spotifyArtistIdOf spotify_data
  let spotify_track_id := spotifyTrackIdOf spotify_data
  let youtube_data := acr_match.external_metadata.bind ExternalMeta.youtube
  let youtube_video_id := youtubeVideoIdOf youtube_data
  { id := acr_match.acrid
    title := acr_match.title.getD "Unknown Title"
    artist := artistFieldOf acr_match
    album := (acr_match.album.bind AlbumInfo.name).getD "Unknown Album"
    releaseDate := acr_match.release_date.getD "N/A"
    matchConfidence := acr_match.score.getD 0
    spotifyArtistId := spotify_artist_id
    spotifyTrackId := spotify_track_id
    youtubeVideoId := youtube_video_id
    youtubeVideoTitle := acr_match.title
    platformLinks :=
      { spotify :=
          if pyTruthyStr spotify_track_id then
            some ("https://open.spotify.com/track/" ++ spotify_track_id.getD "")
          else none
        youtube :=
          if pyTruthyStr youtube_video_id then
            some ("https://www.youtube.com/watch?v=" ++ youtube_video_id.getD "")
          else none } }

/-- Raw match with every optional field absent. -/
def emptyAcrMatch : AcrMatch :=
  { acrid := none
    title := none
    artists := none
    album := none
    release_date := none
    score := none
    external_metadata := none }

/-! ## Startup configuration (src/main.py lines 26-42) -/

/-- Environment variables the module reads; `os.environ.get` yields
`None` when unset. -/
structure Env where
  ACR_CLOUD_HOST : Option String := none
  ACR_HOST : Option String := none
  ACR_CLOUD_ACCESS_KEY : Option String := none
  ACR_ACCESS_KEY : Option String := none
  ACR_CLOUD_ACCESS_SECRET : Option String := none
  ACR_ACCESS_SECRET : Option String := none
deriving DecidableEq

/-- Dictionary `acr_config` built at module load. -/
structure AcrConfig where
  host : Option String
  access_key : Option String
  access_secret : Option String
  timeout : Nat
deriving DecidableEq

/-- src/main.py lines 26-31: each credential is
`os.environ.get` of the primary name, with the alias as fallback, and the timeout is the
literal `10`. -/
def acr_config (env : Env) : AcrConfig :=
  { host := pyOrStr env.ACR_CLOUD_HOST env.ACR_HOST
    access_key := pyOrStr env.ACR_CLOUD_ACCESS_KEY env.ACR_ACCESS_KEY
    access_secret := pyOrStr env.ACR_CLOUD_ACCESS_SECRET env.ACR_ACCESS_SECRET
    timeout := 10 }

/-- src/main.py line 34: `all([host, access_key, access_secret])` with Python
string truthiness. -/
def acrConfigComplete (env : Env) : Bool :=
  pyTruthyStr (acr_config env).host
    && pyTruthyStr (acr_config env).access_key
    && pyTruthyStr (acr_config env).access_secret

/-- src/main.py lines 33-42: `acr_recognizer` is non-`None` exactly when the
configuration is complete and the `ACRCloudRecognizer` constructor did not
raise (`constructionOk`). -/
def acr_recognizer_ready (env : Env) (constructionOk : Bool) : Bool :=
  acrConfigComplete env && constructionOk

/-! ## The handler `process_youtube_url` (src/main.py lines 73-172) -/

/-- Request body as seen through `request.get_json()` followed by
the check that the body is truthy and has a url key. A falsy body and a
body without the url key behave identically (both reach the 400 return). -/
inductive ReqJson where
  | noBody
  | bodyWithoutUrl
  | bodyWithUrl (url : String)
deriving DecidableEq

/-- Whether the body carries a `url` value at all. -/
def ReqJson.hasUrl : ReqJson → Bool
  | .bodyWithUrl _ => true
  | _ => false

/-- Stream object picked at src/main.py lines 96-98 (only its `subtype`
is consumed, for the temp-file suffix). -/
structure StreamInfo where
  subtype : Option String
deriving DecidableEq

/-- Python exceptions the handler can see, grouped by how the
`except` chain at src/main.py lines 135-165 dispatches them:
specific pytube video errors (line 135), generic `PytubeError` (line 141),
any other exception carrying a numeric `code` attribute (such as
`urllib.error.HTTPError`), and any other exception without one. -/
inductive PyExc where
  | videoSpecific (msg : String)
  | pytubeGeneric (msg : String)
  | withCode (code : Nat) (msg : String)
  | plain (msg : String)
deriving DecidableEq

/-- Behaviour of `YouTube(url)` plus the stream filtering at lines 92-98:
either it raises, or it yields the chosen audio stream (or none). -/
inductive ExtractOutcome where
  | ok (audioStream : Option StreamInfo)
  | raise (e : PyExc)
deriving DecidableEq

/-- Behaviour of `audio_stream.download(...)` at lines 108-109. -/
inductive DownloadOutcome where
  | ok
  | raise (e : PyExc)
deriving DecidableEq

/-- Status object of the parsed ACRCloud response. -/
structure AcrStatus where
  code : Option Int
  msg : Option String
deriving DecidableEq

/-- Metadata object of the parsed ACRCloud response. -/
structure AcrMetadata where
  music : Option (List AcrMatch)
deriving DecidableEq

/-- Parsed ACRCloud response consumed at lines 117-123. -/
structure AcrResponse where
  status : Option AcrStatus
  metadata : Option AcrMetadata
deriving DecidableEq

/-- Behaviour of `recognize_by_file` plus `json.loads` at lines 114-117:
either a parsed response, or a raised exception (a malformed response body
raises `json.JSONDecodeError`, a `plain` exception). -/
inductive RecognizeOutcome where
  | ok (resp : AcrResponse)
  | raise (e : PyExc)
deriving DecidableEq

/-- View of the external world for one request: what the extraction library,
the download, the recognition call and the final `os.remove` do. -/
structure World where
  extract : ExtractOutcome
  download : DownloadOutcome
  recognize : RecognizeOutcome
  deleteFails : Bool
deriving DecidableEq

/-- src/main.py line 118: the status code of the scan results, defaulting to -1. -/
def acrStatusCode (r : AcrResponse) : Int :=
  (r.status.bind AcrStatus.code).getD (-1)

/-- src/main.py line 119: the status message of the scan results, with its default. -/
def acrStatusMsg (r : AcrResponse) : String :=
  (r.status.bind AcrStatus.msg).getD "Unknown ACRCloud status"

/-- src/main.py lines 122-123: the music list of the scan results metadata, defaulting to empty. -/
def acrMusicList (r : AcrResponse) : List AcrMatch :=
  (r.metadata.bind AcrMetadata.music).getD []

/-- JSON body of a response, with absent keys `none`. Only the keys the
handler ever emits are modelled. -/
structure Payload where
  error : Option String := none
  matchList : Option (List SoundTraceMatch) := none  -- the "matches" JSON key (`matches` is a Lean keyword)
  acrCode : Option Int := none
  acrResponse : Option String := none
deriving DecidableEq

/-- How a request ends: an HTTP response, or an exception escaping the
handler (Flask then produces its own error page; the handler returned
nothing). -/
inductive HandlerResult where
  | response (status : Nat) (payload : Payload)
  | escaped (excName : String)
deriving DecidableEq

/-- Predicate that is `true` exactly on `HandlerResult.response`. -/
def HandlerResult.isResponse : HandlerResult → Bool
  | .response _ _ => true
  | .escaped _ => false

/-- HTTP status of a result, `none` when the handler escaped. -/
def statusOf : HandlerResult → Option Nat
  | .response s _ => some s
  | .escaped _ => none

/-- Observable events of one request: which external work was attempted,
every `(start_seconds, rec_length)` pair passed to `recognize_by_file`,
whether the temporary file was created, whether it still exists after the
`finally` block, and whether a deletion failure was logged. -/
structure Trace where
  extractionAttempted : Bool := false
  downloadAttempted : Bool := false
  recognitionCalls : List (Nat × Nat) := []
  tempCreated : Bool := false
  tempExistsAtEnd : Bool := false
  cleanupErrorLogged : Bool := false
deriving DecidableEq

/-- src/main.py lines 117-133: inspect the status code of the parsed response:
`0` builds the mapped matches with HTTP 200, `1001` yields HTTP 200 with an
empty list, anything else yields HTTP 500 carrying the upstream code and
message. A raised exception propagates (`Sum.inl`). -/
def recognitionStep (rec : RecognizeOutcome) : PyExc ⊕ (Nat × Payload) :=
  match rec with
  | .raise e => Sum.inl e
  | .ok resp =>
    let c := acrStatusCode resp
    let m := acrStatusMsg resp
    if c = 0 then
      Sum.inr (200,
        { matchList := some ((acrMusicList resp).map map_acr_match_to_soundtrace_format)
          acrCode := some c, acrResponse := some m })
    else if c = 1001 then
      Sum.inr (200, { matchList := some [], acrCode := some c, acrResponse := some m })
    else
      Sum.inr (500,
        { error := some ("ACRCloud recognition error: " ++ m)
          matchList := some [], acrCode := some c, acrResponse := some m })

/-- Body of the `try` block, src/main.py lines 89-133: extraction, the 404 when no
audio stream exists, temp-file creation plus download, then recognition.
Returns either the raised exception or the `(status, payload)` pair, with
the trace of what was attempted (cleanup fields still at their defaults). -/
def tryBody (ext : ExtractOutcome) (dl : DownloadOutcome) (rec : RecognizeOutcome) :
    (PyExc ⊕ (Nat × Payload)) × Trace :=
  match ext with
  | .raise e => (Sum.inl e, { extractionAttempted := true })
  | .ok none =>
    (Sum.inr (404, { error := some "No audio stream found for the given YouTube URL." }),
      { extractionAttempted := true })
  | .ok (some _) =>
    match dl with
    | .raise e =>
      (Sum.inl e, { extractionAttempted := true, downloadAttempted := true, tempCreated := true })
    | .ok =>
      (recognitionStep rec,
        { extractionAttempted := true, downloadAttempted := true
          recognitionCalls := [(0, 12)], tempCreated := true })

/-- Chain of `except` clauses, src/main.py lines 135-165. The specific pytube
errors yield 404, generic `PytubeError` 500. Any other exception reaches
line 147: since `urllib` is never imported, the membership test of urllib in globals() is
false and the isinstance test against `Exception` always passes, so `e.code`
is evaluated unconditionally — an exception without a `code` attribute
raises `AttributeError`, which escapes the handler. -/
def dispatchExc : PyExc → HandlerResult
  | .videoSpecific m =>
    .response 404 { error := some ("YouTube video error: " ++ m)
                    acrCode := some 9001, acrResponse := some m }
  | .pytubeGeneric m =>
    .response 500 { error := some ("YouTube library error: " ++ m)
                    acrCode := some 9002, acrResponse := some m }
  | .withCode c m =>
    if c = 400 then
      .response 502 { error := some ("YouTube API Bad Request (HTTP 400): " ++ m)
                      acrCode := some 9400, acrResponse := some m }
    else if c = 403 then
      .response 502 { error := some ("YouTube API Forbidden (HTTP 403): " ++ m)
                      acrCode := some 9403, acrResponse := some m }
    else if c = 429 then
      .response 429 { error := some "Rate limited by YouTube (HTTP 429). Please try again later."
                      acrCode := some 9429, acrResponse := some m }
    else
      .response 500 { error := some ("Server error: " ++ m)
                      acrCode := some 9500, acrResponse := some m }
  | .plain _ => .escaped "AttributeError"

/-- Block `finally`, src/main.py lines 166-172: if the temp file was
created (so the path is set and the file exists) it is removed; a failing
removal is caught and logged, leaving the file behind. -/
def runCleanup (deleteFails : Bool) (t : Trace) : Trace :=
  if t.tempCreated then
    if deleteFails then { t with tempExistsAtEnd := true, cleanupErrorLogged := true }
    else { t with tempExistsAtEnd := false }
  else t

/-- Result of the `try`/`except` part alone: the body outcome pushed
through the except chain. -/
def tryResult (ext : ExtractOutcome) (dl : DownloadOutcome) (rec : RecognizeOutcome) :
    HandlerResult :=
  match (tryBody ext dl rec).1 with
  | Sum.inl e => dispatchExc e
  | Sum.inr sp => .response sp.1 sp.2

/-- Whole handler `process_youtube_url` (src/main.py lines 73-172):
the missing-`url` 400 check, the recognizer-not-configured 500 check, then
the `try`/`except`/`finally`. `ready` is `acr_recognizer is not None`. -/
def process_youtube_url (ready : Bool) (req : ReqJson) (w : World) :
    HandlerResult × Trace :=
  match req with
  | .noBody => (.response 400 { error := some "Missing url in JSON payload" }, {})
  | .bodyWithoutUrl => (.response 400 { error := some "Missing url in JSON payload" }, {})
  | .bodyWithUrl _ =>
    if ready then
      (tryResult w.extract w.download w.recognize,
        runCleanup w.deleteFails (tryBody w.extract w.download w.recognize).2)
    else
      (.response 500 { error := some "ACRCloud service not configured on server." }, {})

/-! ## Helper lemmas about `runCleanup` and `tryBody` -/

lemma runCleanup_extractionAttempted (df : Bool) (t : Trace) :
    (runCleanup df t).extractionAttempted = t.extractionAttempted := by
  by_cases h : t.tempCreated <;> by_cases hd : df <;> simp [runCleanup, h, hd]

lemma runCleanup_downloadAttempted (df : Bool) (t : Trace) :
    (runCleanup df t).downloadAttempted = t.downloadAttempted := by
  by_cases h : t.tempCreated <;> by_cases hd : df <;> simp [runCleanup, h, hd]

lemma runCleanup_recognitionCalls (df : Bool) (t : Trace) :
    (runCleanup df t).recognitionCalls = t.recognitionCalls := by
  by_cases h : t.tempCreated <;> by_cases hd : df <;> simp [runCleanup, h, hd]

lemma runCleanup_tempCreated (df : Bool) (t : Trace) :
    (runCleanup df t).tempCreated = t.tempCreated := by
  by_cases h : t.tempCreated <;> by_cases hd : df <;> simp [runCleanup, h, hd]

lemma runCleanup_tempExistsAtEnd (df : Bool) (t : Trace) (h : t.tempExistsAtEnd = false) :
    (runCleanup df t).tempExistsAtEnd = (df && t.tempCreated) := by
  by_cases hc : t.tempCreated <;> by_cases hd : df <;> simp [runCleanup, hc, hd, h]

lemma runCleanup_cleanupErrorLogged (df : Bool) (t : Trace) (h : t.cleanupErrorLogged = false) :
    (runCleanup df t).cleanupErrorLogged = (df && t.tempCreated) := by
  by_cases hc : t.tempCreated <;> by_cases hd : df <;> simp [runCleanup, hc, hd, h]

lemma tryBody_trace_clean (ext : ExtractOutcome) (dl : DownloadOutcome) (rec : RecognizeOutcome) :
    (tryBody ext dl rec).2.tempExistsAtEnd = false
    ∧ (tryBody ext dl rec).2.cleanupErrorLogged = false := by
  cases ext with
  | raise e => exact ⟨rfl, rfl⟩
  | ok a =>
    cases a with
    | none => exact ⟨rfl, rfl⟩
    | some s =>
      cases dl with
      | raise e => exact ⟨rfl, rfl⟩
      | ok => exact ⟨rfl, rfl⟩

lemma tryBody_extractionAttempted (ext : ExtractOutcome) (dl : DownloadOutcome)
    (rec : RecognizeOutcome) : (tryBody ext dl rec).2.extractionAttempted = true := by
  cases ext with
  | raise e => rfl
  | ok a =>
    cases a with
    | none => rfl
    | some s =>
      cases dl with
      | raise e => rfl
      | ok => rfl

/-! ## Claims about the Response Mapper -/

/-- Claim C5: the response mapper is total over any raw match (it is a total
function on `AcrMatch`), and on a raw match missing every optional field it
produces a complete SoundTrace match with the documented defaults:
title Unknown Title, artist Unknown Artist, album Unknown Album,
release date N/A, confidence score 0. -/
theorem map_defaults_on_empty_match :
    map_acr_match_to_soundtrace_format emptyAcrMatch =
      { id := none
        title := "Unknown Title"
        artist := "Unknown Artist"
        album := "Unknown Album"
        releaseDate := "N/A"
        matchConfidence := 0
        spotifyArtistId := none
        spotifyTrackId := none
        youtubeVideoId := none
        youtubeVideoTitle := none
        platformLinks := { spotify := none, youtube := none } } := by
  rfl

/-- Claim C10: for a raw match with the title field absent, the mapped
youtubeVideoTitle is null (no default is applied there), while the title
field of the same mapped result defaults to Unknown Title. -/
theorem missing_title_gives_null_youtubeVideoTitle (m : AcrMatch) (h : m.title = none) :
    (map_acr_match_to_soundtrace_format m).youtubeVideoTitle = none
    ∧ (map_acr_match_to_soundtrace_format m).title = "Unknown Title" := by
  simp [map_acr_match_to_soundtrace_format, h]

/-- Concrete instance of the C10 theorem at the all-absent raw match. -/
theorem missing_title_gives_null_youtubeVideoTitle_witness :
    (map_acr_match_to_soundtrace_format emptyAcrMatch).youtubeVideoTitle = none
    ∧ (map_acr_match_to_soundtrace_format emptyAcrMatch).title = "Unknown Title" :=
  missing_title_gives_null_youtubeVideoTitle emptyAcrMatch rfl

/-- Raw match whose spotify track id and youtube vid are present but equal
to the empty string. -/
def emptyIdAcrMatch : AcrMatch :=
  { emptyAcrMatch with
    external_metadata := some
      { spotify := some { artists := none, track := some { id := some "" } }
        youtube := some { vid := some "" } } }

/-- Counterexample to claim C6 as stated: in this raw match the spotify
track identifier is present (the empty string), yet the mapped spotify
deep link is null, so the link is not null exactly when the identifier is
absent. The youtube link behaves the same way. -/
theorem present_empty_track_id_yields_null_link :
    spotifyTrackIdOf (emptyIdAcrMatch.external_metadata.bind ExternalMeta.spotify) = some ""
    ∧ (map_acr_match_to_soundtrace_format emptyIdAcrMatch).platformLinks.spotify = none
    ∧ youtubeVideoIdOf (emptyIdAcrMatch.external_metadata.bind ExternalMeta.youtube) = some ""
    ∧ (map_acr_match_to_soundtrace_format emptyIdAcrMatch).platformLinks.youtube = none := by
  refine ⟨rfl, ?_, rfl, ?_⟩ <;> rfl

/-- Claim C6 (amended): in every mapped match, each platform deep link is
null exactly when that platform source identifier is absent from the raw
match or is the empty string (Python truthiness), and for a present
nonempty identifier the link is constructed from that identifier. -/
theorem platform_links_null_iff_id_absent_or_empty (m : AcrMatch) :
    (((map_acr_match_to_soundtrace_format m).platformLinks.spotify = none) ↔
      (spotifyTrackIdOf (m.external_metadata.bind ExternalMeta.spotify) = none
        ∨ spotifyTrackIdOf (m.external_metadata.bind ExternalMeta.spotify) = some ""))
    ∧ (∀ s : String,
        spotifyTrackIdOf (m.external_metadata.bind ExternalMeta.spotify) = some s → s ≠ "" →
        (map_acr_match_to_soundtrace_format m).platformLinks.spotify =
          some ("https://open.spotify.com/track/" ++ s))
    ∧ (((map_acr_match_to_soundtrace_format m).platformLinks.youtube = none) ↔
      (youtubeVideoIdOf (m.external_metadata.bind ExternalMeta.youtube) = none
        ∨ youtubeVideoIdOf (m.external_metadata.bind ExternalMeta.youtube) = some ""))
    ∧ (∀ s : String,
        youtubeVideoIdOf (m.external_metadata.bind ExternalMeta.youtube) = some s → s ≠ "" →
        (map_acr_match_to_soundtrace_format m).platformLinks.youtube =
          some ("https://www.youtube.com/watch?v=" ++ s)) := by
  refine ⟨?_, ?_, ?_, ?_⟩
  · cases h : spotifyTrackIdOf (m.external_metadata.bind ExternalMeta.spotify) with
    | none => simp [map_acr_match_to_soundtrace_format, h, pyTruthyStr]
    | some s =>
      by_cases hs : s = ""
      · subst hs; simp [map_acr_match_to_soundtrace_format, h, pyTruthyStr]
      · simp [map_acr_match_to_soundtrace_format, h, pyTruthyStr, hs]
  · intro s h hs
    simp [map_acr_match_to_soundtrace_format, h, pyTruthyStr, hs]
  · cases h : youtubeVideoIdOf (m.external_metadata.bind ExternalMeta.youtube) with
    | none => simp [map_acr_match_to_soundtrace_format, h, pyTruthyStr]
    | some s =>
      by_cases hs : s = ""
      · subst hs; simp [map_acr_match_to_soundtrace_format, h, pyTruthyStr]
      · simp [map_acr_match_to_soundtrace_format, h, pyTruthyStr, hs]
  · intro s h hs
    simp [map_acr_match_to_soundtrace_format, h, pyTruthyStr, hs]

/-- Raw match with nonempty spotify track and youtube video identifiers. -/
def linkedAcrMatch : AcrMatch :=
  { emptyAcrMatch with
    external_metadata := some
      { spotify := some { artists := none, track := some { id := some "6rqhFgbbKwnb9MLmUQDhG6" } }
        youtube := some { vid := some "dQw4w9WgXcQ" } } }

/-- Concrete instance of the C6 theorem: present nonempty identifiers give
links built from them. -/
theorem platform_links_null_iff_id_absent_or_empty_witness :
    (map_acr_match_to_soundtrace_format linkedAcrMatch).platformLinks.spotify =
      some ("https://open.spotify.com/track/" ++ "6rqhFgbbKwnb9MLmUQDhG6")
    ∧ (map_acr_match_to_soundtrace_format linkedAcrMatch).platformLinks.youtube =
      some ("https://www.youtube.com/watch?v=" ++ "dQw4w9WgXcQ") :=
  ⟨(platform_links_null_iff_id_absent_or_empty linkedAcrMatch).2.1
      "6rqhFgbbKwnb9MLmUQDhG6" rfl (by decide),
    (platform_links_null_iff_id_absent_or_empty linkedAcrMatch).2.2.2
      "dQw4w9WgXcQ" rfl (by decide)⟩

/-! ## Claims about the handler -/

lemma statusOf_dispatchExc_ne_400 (e : PyExc) : statusOf (dispatchExc e) ≠ some 400 := by
  cases e with
  | videoSpecific m => simp [dispatchExc, statusOf]
  | pytubeGeneric m => simp [dispatchExc, statusOf]
  | withCode c m =>
    by_cases h4 : c = 400 <;> by_cases h3 : c = 403 <;> by_cases h9 : c = 429 <;>
      simp [dispatchExc, statusOf, h4, h3, h9]
  | plain m => simp [dispatchExc, statusOf]

lemma tryResult_status_ne_400 (ext : ExtractOutcome) (dl : DownloadOutcome)
    (rec : RecognizeOutcome) : statusOf (tryResult ext dl rec) ≠ some 400 := by
  cases ext with
  | raise e => exact statusOf_dispatchExc_ne_400 e
  | ok a =>
    cases a with
    | none => simp [tryResult, tryBody, statusOf]
    | some s =>
      cases dl with
      | raise e => exact statusOf_dispatchExc_ne_400 e
      | ok =>
        cases rec with
        | raise e => exact statusOf_dispatchExc_ne_400 e
        | ok resp =>
          simp only [tryResult, tryBody, recognitionStep]
          by_cases h0 : acrStatusCode resp = 0
          · simp [h0, statusOf]
          · by_cases h1 : acrStatusCode resp = 1001 <;> simp [h0, h1, statusOf]

/-- Claim C1 (amended): the endpoint applies no URL-grammar validation at
all. It responds 400 exactly when the request body is missing or lacks a
url key, and for any request that carries a url value — well-formed for
the video host or not — the extraction client is invoked whenever the
recognizer is configured (a malformed URL surfaces as an extraction-library
error, not as a 400). -/
theorem badRequest_iff_missing_url (ready : Bool) (req : ReqJson) (w : World) :
    ((statusOf (process_youtube_url ready req w).1 = some 400) ↔ req.hasUrl = false)
    ∧ (process_youtube_url ready req w).2.extractionAttempted = (req.hasUrl && ready) := by
  obtain ⟨ext, dl, rec, df⟩ := w
  cases req with
  | noBody => cases ready <;> simp [process_youtube_url, statusOf, ReqJson.hasUrl]
  | bodyWithoutUrl => cases ready <;> simp [process_youtube_url, statusOf, ReqJson.hasUrl]
  | bodyWithUrl u =>
    cases ready with
    | false => simp [process_youtube_url, statusOf, ReqJson.hasUrl]
    | true =>
      constructor
      · constructor
        · intro hcontra
          exact absurd hcontra (tryResult_status_ne_400 ext dl rec)
        · intro hcontra
          simp [ReqJson.hasUrl] at hcontra
      · show (runCleanup df (tryBody ext dl rec).2).extractionAttempted =
          (ReqJson.hasUrl (.bodyWithUrl u) && true)
        rw [runCleanup_extractionAttempted, tryBody_extractionAttempted]
        rfl

/-- World in which the extraction library raises its generic error on a
string it cannot parse as a video URL (what pytube does on malformed
input). -/
def wRegexFail : World :=
  { extract := .raise (.pytubeGeneric "regex_search could not find match")
    download := .ok
    recognize := .raise (.plain "unused")
    deleteFails := false }

/-- Counterexample to claim C1 as stated: the input string is not a URL of
the supported video host under any grammar, yet the handler attempts
extraction and responds 500, not 400. -/
theorem malformed_url_reaches_extraction :
    (process_youtube_url true (.bodyWithUrl "not a url") wRegexFail).2.extractionAttempted = true
    ∧ statusOf (process_youtube_url true (.bodyWithUrl "not a url") wRegexFail).1 = some 500
    ∧ statusOf (process_youtube_url true (.bodyWithUrl "not a url") wRegexFail).1 ≠ some 400 :=
  ⟨rfl, rfl, by decide⟩

/-- Claim C2 (amended): when the recognition-service credentials are not
all set (so the recognizer is not constructed at startup), every call
whose body carries a url returns HTTP 500 — not 503 — and this is decided
before any extraction or download work is attempted. -/
theorem unconfigured_recognizer_500_before_work (env : Env) (ok : Bool) (u : String)
    (w : World) (h : acrConfigComplete env = false) :
    process_youtube_url (acr_recognizer_ready env ok) (.bodyWithUrl u) w =
      (.response 500 { error := some "ACRCloud service not configured on server." }, {})
    ∧ (process_youtube_url (acr_recognizer_ready env ok) (.bodyWithUrl u) w).2.downloadAttempted
        = false
    ∧ (process_youtube_url (acr_recognizer_ready env ok) (.bodyWithUrl u) w).2.extractionAttempted
        = false := by
  have hr : acr_recognizer_ready env ok = false := by
    simp [acr_recognizer_ready, h]
  rw [hr]
  exact ⟨rfl, rfl, rfl⟩

/-- Parsed ACRCloud response with the no-result status code 1001. -/
def resp1001 : AcrResponse :=
  { status := some { code := some 1001, msg := some "No result" }, metadata := none }

/-- World of a fully successful download whose recognition reports no
match (status code 1001). -/
def wNoMatch : World :=
  { extract := .ok (some { subtype := some "mp4" })
    download := .ok
    recognize := .ok resp1001
    deleteFails := false }

/-- Concrete instance of the C2 theorem: with every credential variable
unset the recognizer is absent and a url-bearing call is answered 500 with
no external work. -/
theorem unconfigured_recognizer_500_before_work_witness :
    process_youtube_url (acr_recognizer_ready {} true)
        (.bodyWithUrl "https://www.youtube.com/watch?v=dQw4w9WgXcQ") wNoMatch =
      (.response 500 { error := some "ACRCloud service not configured on server." }, {})
    ∧ (process_youtube_url (acr_recognizer_ready {} true)
        (.bodyWithUrl "https://www.youtube.com/watch?v=dQw4w9WgXcQ") wNoMatch).2.downloadAttempted
        = false
    ∧ (process_youtube_url (acr_recognizer_ready {} true)
        (.bodyWithUrl "https://www.youtube.com/watch?v=dQw4w9WgXcQ")
          wNoMatch).2.extractionAttempted = false :=
  unconfigured_recognizer_500_before_work {} true
    "https://www.youtube.com/watch?v=dQw4w9WgXcQ" wNoMatch rfl

/-- Counterexample to claim C2 as stated: with the credential environment
variables unset, a url-bearing call is answered with HTTP 500, which is
not the claimed 503. -/
theorem unconfigured_env_gives_500_not_503 :
    statusOf (process_youtube_url (acr_recognizer_ready {} true)
        (.bodyWithUrl "https://www.youtube.com/watch?v=dQw4w9WgXcQ") wNoMatch).1 = some 500
    ∧ statusOf (process_youtube_url (acr_recognizer_ready {} true)
        (.bodyWithUrl "https://www.youtube.com/watch?v=dQw4w9WgXcQ") wNoMatch).1 ≠ some 503 :=
  ⟨rfl, by decide⟩

/-- Claim C3: whenever an otherwise-well-formed request reaches recognition
(extraction found an audio stream, the download succeeded, and the
response parsed) and the recognition status code is 1001, the endpoint
responds HTTP 200 with an empty match list and no error key. -/
theorem acr_code_1001_yields_200_empty_matches (u : String) (st : StreamInfo) (df : Bool)
    (resp : AcrResponse) (hc : acrStatusCode resp = 1001) :
    (process_youtube_url true (.bodyWithUrl u)
        { extract := .ok (some st), download := .ok, recognize := .ok resp,
          deleteFails := df }).1 =
      .response 200 { matchList := some [], acrCode := some 1001,
                      acrResponse := some (acrStatusMsg resp) } := by
  show tryResult (.ok (some st)) .ok (.ok resp) = _
  simp [tryResult, tryBody, recognitionStep, hc]

/-- Concrete instance of the C3 theorem on a no-match world. -/
theorem acr_code_1001_yields_200_empty_matches_witness :
    (process_youtube_url true (.bodyWithUrl "https://www.youtube.com/watch?v=dQw4w9WgXcQ")
        wNoMatch).1 =
      .response 200 { matchList := some [], acrCode := some 1001,
                      acrResponse := some (acrStatusMsg resp1001) } :=
  acr_code_1001_yields_200_empty_matches "https://www.youtube.com/watch?v=dQw4w9WgXcQ"
    { subtype := some "mp4" } false resp1001 rfl

/-- Claim C4: on every exit path the cleanup runs — the response never
depends on whether the deletion failed, the temporary file is gone after
the request exactly unless the deletion itself failed, and a deletion
failure is logged. -/
theorem temp_file_cleanup_on_every_exit_path (ready : Bool) (req : ReqJson) (w : World) :
    (process_youtube_url ready req { w with deleteFails := true }).1 =
      (process_youtube_url ready req { w with deleteFails := false }).1
    ∧ (process_youtube_url ready req w).2.tempExistsAtEnd =
      (w.deleteFails && (process_youtube_url ready req w).2.tempCreated)
    ∧ (process_youtube_url ready req w).2.cleanupErrorLogged =
      (w.deleteFails && (process_youtube_url ready req w).2.tempCreated) := by
  obtain ⟨ext, dl, rec, df⟩ := w
  cases req with
  | noBody =>
    exact ⟨rfl, by simp [process_youtube_url], by simp [process_youtube_url]⟩
  | bodyWithoutUrl =>
    exact ⟨rfl, by simp [process_youtube_url], by simp [process_youtube_url]⟩
  | bodyWithUrl u =>
    cases ready with
    | false =>
      exact ⟨rfl, by simp [process_youtube_url], by simp [process_youtube_url]⟩
    | true =>
      refine ⟨rfl, ?_, ?_⟩
      · show (runCleanup df (tryBody ext dl rec).2).tempExistsAtEnd =
          (df && (runCleanup df (tryBody ext dl rec).2).tempCreated)
        rw [runCleanup_tempExistsAtEnd df _ (tryBody_trace_clean ext dl rec).1,
          runCleanup_tempCreated]
      · show (runCleanup df (tryBody ext dl rec).2).cleanupErrorLogged =
          (df && (runCleanup df (tryBody ext dl rec).2).tempCreated)
        rw [runCleanup_cleanupErrorLogged df _ (tryBody_trace_clean ext dl rec).2,
          runCleanup_tempCreated]

/-- World in which the downloaded file makes the recognition step raise an
exception that has no numeric code attribute (for example the JSON decode
error raised when the recognition response body is not valid JSON). -/
def wBadJson : World :=
  { extract := .ok (some { subtype := some "mp4" })
    download := .ok
    recognize := .raise (.plain "Expecting value")
    deleteFails := false }

/-- Claim C7 is false of the code (code bug): an exception without a code
attribute reaches the final except clause, whose unguarded access to
e.code raises AttributeError; the handler returns no JSON response at all
(the exception escapes to the framework). The finally block still runs, so
the temporary file is removed. -/
theorem plain_exception_escapes_handler :
    (process_youtube_url true (.bodyWithUrl "https://www.youtube.com/watch?v=dQw4w9WgXcQ")
        wBadJson).1 = .escaped "AttributeError"
    ∧ (process_youtube_url true (.bodyWithUrl "https://www.youtube.com/watch?v=dQw4w9WgXcQ")
        wBadJson).1.isResponse = false
    ∧ (process_youtube_url true (.bodyWithUrl "https://www.youtube.com/watch?v=dQw4w9WgXcQ")
        wBadJson).2.tempExistsAtEnd = false :=
  ⟨rfl, rfl, rfl⟩

/-- Claim C8: any recognition status code other than 0 and 1001 makes the
endpoint respond HTTP 500 with a payload that carries the upstream code
and the upstream message verbatim (and embeds the message in the error
text). -/
theorem acr_error_code_maps_to_500_verbatim (u : String) (st : StreamInfo) (df : Bool)
    (c : Int) (m : String) (meta : Option AcrMetadata) (h0 : c ≠ 0) (h1 : c ≠ 1001) :
    (process_youtube_url true (.bodyWithUrl u)
        { extract := .ok (some st), download := .ok,
          recognize := .ok { status := some { code := some c, msg := some m },
                             metadata := meta },
          deleteFails := df }).1 =
      .response 500 { error := some ("ACRCloud recognition error: " ++ m),
                      matchList := some [], acrCode := some c, acrResponse := some m } := by
  show tryResult (.ok (some st)) .ok (.ok _) = _
  simp [tryResult, tryBody, recognitionStep, acrStatusCode, acrStatusMsg, h0, h1]

/-- Concrete instance of the C8 theorem at upstream code 3001. -/
theorem acr_error_code_maps_to_500_verbatim_witness :
    (process_youtube_url true (.bodyWithUrl "https://www.youtube.com/watch?v=dQw4w9WgXcQ")
        { extract := .ok (some { subtype := some "mp4" }), download := .ok,
          recognize := .ok { status := some { code := some 3001,
                                              msg := some "Missing Access Key" },
                             metadata := none },
          deleteFails := false }).1 =
      .response 500 { error := some ("ACRCloud recognition error: " ++ "Missing Access Key"),
                      matchList := some [], acrCode := some 3001,
                      acrResponse := some "Missing Access Key" } :=
  acr_error_code_maps_to_500_verbatim "https://www.youtube.com/watch?v=dQw4w9WgXcQ"
    { subtype := some "mp4" } false 3001 "Missing Access Key" none (by decide) (by decide)

/-- Claim C9: the recognition configuration fixes the client timeout at 10
seconds for every environment, and every recognition call the handler ever
makes passes scan window start 0 and scan window length 12. -/
theorem recognition_uses_fixed_constants :
    (∀ env : Env, (acr_config env).timeout = 10)
    ∧ ∀ (ready : Bool) (req : ReqJson) (w : World),
        (process_youtube_url ready req w).2.recognitionCalls = []
        ∨ (process_youtube_url ready req w).2.recognitionCalls = [(0, 12)] := by
  refine ⟨fun env => rfl, fun ready req w => ?_⟩
  obtain ⟨ext, dl, rec, df⟩ := w
  cases req with
  | noBody => exact Or.inl rfl
  | bodyWithoutUrl => exact Or.inl rfl
  | bodyWithUrl u =>
    cases ready with
    | false => exact Or.inl rfl
    | true =>
      have hr : (process_youtube_url true (.bodyWithUrl u)
            ⟨ext, dl, rec, df⟩).2.recognitionCalls
          = (tryBody ext dl rec).2.recognitionCalls :=
        runCleanup_recognitionCalls df ((tryBody ext dl rec).2)
      rw [hr]
      cases ext with
      | raise e => exact Or.inl rfl
      | ok a =>
        cases a with
        | none => exact Or.inl rfl
        | some s =>
          cases dl with
          | raise e => exact Or.inl rfl
          | ok => exact Or.inr rfl
